import Mathlib

/-
  Verification development for the Vulkan bootstrap program in src/main.cpp
  of the vulkan-sandbox repository.

  The embedding models handles as natural numbers (VK_NULL_HANDLE = 0),
  backend result codes (VkResult) as integers with the numeric values of
  the Vulkan headers, and the process-wide static state of the program as
  an explicit record.  Process termination through exit(EXIT_FAILURE) and
  assertion aborts are modelled with Except.  Backend behaviour (the result
  codes and payloads of the Vulkan calls) is an explicit parameter, since
  the program treats the backend as an oracle.
-/

namespace VulkanSandbox

/-- Null handle constant of the backend: VK_NULL_HANDLE is the zero handle. -/
def VK_NULL_HANDLE : Nat := 0

/-- VkResult code VK_SUCCESS (value 0 in the Vulkan headers). -/
def VK_SUCCESS : Int := 0

/-- VkResult code VK_INCOMPLETE (value 5 in the Vulkan headers). -/
def VK_INCOMPLETE : Int := 5

/-- VkResult code VK_ERROR_OUT_OF_HOST_MEMORY (value -1). -/
def VK_ERROR_OUT_OF_HOST_MEMORY : Int := -1

/-- VkResult code VK_ERROR_OUT_OF_DEVICE_MEMORY (value -2). -/
def VK_ERROR_OUT_OF_DEVICE_MEMORY : Int := -2

/-- VkResult code VK_ERROR_INITIALIZATION_FAILED (value -3). -/
def VK_ERROR_INITIALIZATION_FAILED : Int := -3

/-- VkResult code VK_ERROR_LAYER_NOT_PRESENT (value -6). -/
def VK_ERROR_LAYER_NOT_PRESENT : Int := -6

/-- VkResult code VK_ERROR_EXTENSION_NOT_PRESENT (value -7). -/
def VK_ERROR_EXTENSION_NOT_PRESENT : Int := -7

/-- VkResult code VK_ERROR_INCOMPATIBLE_DRIVER (value -9). -/
def VK_ERROR_INCOMPATIBLE_DRIVER : Int := -9

/-- Queue flag bit VK_QUEUE_GRAPHICS_BIT (value 1). -/
def VK_QUEUE_GRAPHICS_BIT : Nat := 1

/-- Queue flag bit VK_QUEUE_COMPUTE_BIT (value 2). -/
def VK_QUEUE_COMPUTE_BIT : Nat := 2

/-- Exit status used by exit(EXIT_FAILURE) in the source (value 1). -/
def EXIT_FAILURE : Nat := 1

/-- Exit status the source intends for a completed run: the return 0 at
the end of WinMain (main.cpp line 581).  That statement is never reached;
see ACCESS_VIOLATION_EXIT_CODE. -/
def EXIT_SUCCESS : Nat := 0

/-- Exit status of the null pointer dereference that ends every run whose
bootstrap succeeds: after the message loop, WinMain (main.cpp line 579)
reads hPrevInstance->unused, and hPrevInstance is always NULL for a Win32
application, so the process terminates abnormally with
STATUS_ACCESS_VIOLATION (0xC0000005) before reaching return 0.  Any
non-zero value would serve the claims; what matters is that it is not
zero. -/
def ACCESS_VIOLATION_EXIT_CODE : Nat := 3221225477

/-- Exit status of an abort raised by a failing assert on Windows (value 3).
Any particular non-zero value would do for the claims; what matters is that
it is not zero. -/
def ABORT_EXIT_CODE : Nat := 3

/-- Global validation layer list VALIDATION_LAYERS of main.cpp (lines 15-17). -/
def VALIDATION_LAYERS : List String := ["VK_LAYER_LUNARG_standard_validation"]

/-- Global extension list EXTENSIONS of main.cpp (lines 19-23); the macro
VK_EXT_DEBUG_UTILS_EXTENSION_NAME of the headers expands to the string
VK_EXT_debug_utils. -/
def EXTENSIONS : List String := ["VK_EXT_debug_utils", "VK_KHR_surface", "VK_KHR_win32_surface"]

/-- The debug mode flag of main.cpp lines 25-29.  In the branch that the
compiler actually accepts (NDEBUG undefined) the constant is named
enableValidationLayers and is true; the NDEBUG branch defines a constant of
a different name (enabledValidationLayers), so the uses of
enableValidationLayers at lines 219 and 406 only compile in the debug
configuration.  Hence as compiled the flag is the constant true, and
assert() is active. -/
def enableValidationLayers : Bool := true

/-- The process-wide static handle state of main.cpp lines 39-47 (the window
handle sHWND is owned by the windowing collaborator and is out of scope). -/
structure AppState where
  sInstance : Nat
  sPhysicalDevice : Nat
  sQueueFamilyIndex : Nat
  sLogicalDevice : Nat
  sSurface : Nat
deriving DecidableEq

/-- The initial values of the static handles: every handle is VK_NULL_HANDLE
and the queue family index is 0 (main.cpp lines 39-47). -/
def initAppState : AppState :=
  { sInstance := VK_NULL_HANDLE
    sPhysicalDevice := VK_NULL_HANDLE
    sQueueFamilyIndex := 0
    sLogicalDevice := VK_NULL_HANDLE
    sSurface := VK_NULL_HANDLE }

/-- Ways in which the bootstrap can terminate the process early: a fatal
backend rejection (exit(EXIT_FAILURE) after printing the given message), or
an abort raised by a failing assert. -/
inductive BootFail where
  | fatal (msg : String)
  | assertFail
deriving DecidableEq

/-- Translation of vulkan_result_description, main.cpp lines 53-76.  The
switch maps the eight listed codes to fixed strings and every other code to
a string with the numeric value inlined through std::to_string. -/
def vulkan_result_description (result : Int) : String :=
  if result = VK_SUCCESS then "Command successfully completed."
  else if result = VK_INCOMPLETE then "A return array was too small for the result."
  else if result = VK_ERROR_OUT_OF_HOST_MEMORY then "A host memory allocation has failed."
  else if result = VK_ERROR_OUT_OF_DEVICE_MEMORY then "A device memory allocation has failed."
  else if result = VK_ERROR_INITIALIZATION_FAILED then "Initialization of an object could not be completed."
  else if result = VK_ERROR_LAYER_NOT_PRESENT then "A requested layer is not present or could not be loaded."
  else if result = VK_ERROR_EXTENSION_NOT_PRESENT then "A requested extension is not supported."
  else if result = VK_ERROR_INCOMPATIBLE_DRIVER then "The requested version of Vulkan is not supported by the driver."
  else "An unknown result code [" ++ toString result ++ "] occured."

-- ===========================================================================
-- Two-call enumeration protocol
-- ===========================================================================

/-- One backend call of a count-then-fill enumeration: either the count call
(with a null output buffer) or the fill call with a buffer of the given
size. -/
inductive EnumCall where
  | countCall
  | fillCall (bufferSize : Nat)
deriving DecidableEq

/-- The shared control flow of the VkResult-returning enumerations in
main.cpp (vkEnumeratePhysicalDevices at lines 101-122,
vkEnumerateInstanceLayerProperties at lines 292-306,
vkEnumerateInstanceExtensionProperties at lines 337-351): one count call
with a null buffer; exit(EXIT_FAILURE) if its result is not VK_SUCCESS; one
fill call with a buffer sized to the obtained count; exit(EXIT_FAILURE) if
its result is not VK_SUCCESS; otherwise return the records.  The first
component is the trace of backend calls performed, the second is none when
the process exits and some count on success. -/
def two_call_enumeration (countResult : Int) (count : Nat) (fillResult : Int) :
    List EnumCall × Option Nat :=
  if countResult ≠ VK_SUCCESS then ([EnumCall.countCall], none)
  else if fillResult ≠ VK_SUCCESS then
    ([EnumCall.countCall, EnumCall.fillCall count], none)
  else ([EnumCall.countCall, EnumCall.fillCall count], some count)

/-- Translation of enumerate_physical_devices, main.cpp lines 101-122, with
the backend results of the two vkEnumeratePhysicalDevices calls as
parameters. -/
def enumerate_physical_devices (countResult : Int) (deviceCount : Nat) (fillResult : Int) :
    List EnumCall × Option Nat :=
  two_call_enumeration countResult deviceCount fillResult

/-- Translation of enumerate_queue_family_properties, main.cpp lines
126-139.  vkGetPhysicalDeviceQueueFamilyProperties returns no VkResult, so
this enumeration performs its two calls and cannot fail. -/
def enumerate_queue_family_properties (queueFamilyCount : Nat) : List EnumCall × Nat :=
  ([EnumCall.countCall, EnumCall.fillCall queueFamilyCount], queueFamilyCount)

-- ===========================================================================
-- Physical device selection
-- ===========================================================================

/-- The queue family record as far as the program reads it: the queueFlags
bitmask of VkQueueFamilyProperties. -/
structure VkQueueFamilyProperties where
  queueFlags : Nat
deriving DecidableEq

/-- A physical device as far as the program reads it: the opaque handle, the
geometryShader and tessellationShader flags of VkPhysicalDeviceFeatures
(VkBool32 values, nonzero means supported), and the queue family list. -/
structure PhysicalDevice where
  handle : Nat
  geometryShader : Nat
  tessellationShader : Nat
  queueFamilies : List VkQueueFamilyProperties
deriving DecidableEq

/-- The requirement check of main.cpp lines 171-172: the queue family
advertises VK_QUEUE_GRAPHICS_BIT and the device advertises both the
geometry shader and the tessellation shader feature. -/
def device_queue_satisfies (d : PhysicalDevice) (qf : VkQueueFamilyProperties) : Bool :=
  d.geometryShader != 0 && d.tessellationShader != 0 &&
    ((qf.queueFlags &&& VK_QUEUE_GRAPHICS_BIT) != 0)

/-- The inner loop of select_vulkan_physical_device_and_queue_family
(main.cpp lines 164-176): walk the queue families of device d with a
running index i; whenever the requirement check passes, overwrite
sPhysicalDevice and sQueueFamilyIndex with this device and this index. -/
def select_queue_families (d : PhysicalDevice) (qfs : List VkQueueFamilyProperties)
    (i : Nat) (s : AppState) : AppState :=
  match qfs with
  | [] => s
  | qf :: rest =>
    let s2 :=
      if device_queue_satisfies d qf then
        { s with sPhysicalDevice := d.handle, sQueueFamilyIndex := i }
      else s
    select_queue_families d rest (i + 1) s2

/-- The outer loop of select_vulkan_physical_device_and_queue_family
(main.cpp lines 150-177): run the inner loop for every enumerated device in
order. -/
def select_devices (devices : List PhysicalDevice) (s : AppState) : AppState :=
  match devices with
  | [] => s
  | d :: rest => select_devices rest (select_queue_families d d.queueFamilies 0 s)

/-- Translation of select_vulkan_physical_device_and_queue_family, main.cpp
lines 143-178: assert that the instance handle is live (active because only
the debug configuration compiles), then run the selection loops over the
enumerated devices.  The backend enumeration results of
enumerate_physical_devices are handled in init_vulkan_run; here the device
list obtained from the backend is a parameter. -/
def select_vulkan_physical_device_and_queue_family (devices : List PhysicalDevice)
    (s : AppState) : Except BootFail AppState :=
  if s.sInstance = VK_NULL_HANDLE then Except.error BootFail.assertFail
  else Except.ok (select_devices devices s)

/-- The (device handle, queue family index) pairs that pass the requirement
check inside one device, with the running index starting at i, in loop
order. -/
def sat_queue_pairs (d : PhysicalDevice) (qfs : List VkQueueFamilyProperties)
    (i : Nat) : List (Nat × Nat) :=
  match qfs with
  | [] => []
  | qf :: rest =>
    (if device_queue_satisfies d qf then [(d.handle, i)] else []) ++
      sat_queue_pairs d rest (i + 1)

/-- All (device handle, queue family index) pairs that pass the requirement
check, in the order in which the selection loops visit them. -/
def satisfyingPairs (devices : List PhysicalDevice) : List (Nat × Nat) :=
  match devices with
  | [] => []
  | d :: rest => sat_queue_pairs d d.queueFamilies 0 ++ satisfyingPairs rest

/-- The last element of a pair list, if any. -/
def lastPair : List (Nat × Nat) → Option (Nat × Nat)
  | [] => none
  | [p] => some p
  | _ :: q :: rest => lastPair (q :: rest)

/-- Overwrite the selection fields of the state with the given pair, as the
loop body of the selection does. -/
def applyPair (p : Nat × Nat) (s : AppState) : AppState :=
  { s with sPhysicalDevice := p.1, sQueueFamilyIndex := p.2 }

/-- Overwrite the selection fields with the last pair of the list, when the
list is nonempty. -/
def applyLast (ps : List (Nat × Nat)) (s : AppState) : AppState :=
  match lastPair ps with
  | none => s
  | some p => applyPair p s

-- ===========================================================================
-- Logical device creation
-- ===========================================================================

/-- The feature flags of VkPhysicalDeviceFeatures (Vulkan 1.0). -/
inductive FeatureFlag where
  | robustBufferAccess | fullDrawIndexUint32 | imageCubeArray | independentBlend
  | geometryShader | tessellationShader | sampleRateShading | dualSrcBlend
  | logicOp | multiDrawIndirect | drawIndirectFirstInstance | depthClamp
  | depthBiasClamp | fillModeNonSolid | depthBounds | wideLines | largePoints
  | alphaToOne | multiViewport | samplerAnisotropy | textureCompressionETC2
  | textureCompressionASTC_LDR | textureCompressionBC | occlusionQueryPrecise
  | pipelineStatisticsQuery | vertexPipelineStoresAndAtomics
  | fragmentStoresAndAtomics | shaderTessellationAndGeometryPointSize
  | shaderImageGatherExtended | shaderStorageImageExtendedFormats
  | shaderStorageImageMultisample | shaderStorageImageReadWithoutFormat
  | shaderStorageImageWriteWithoutFormat | shaderUniformBufferArrayDynamicIndexing
  | shaderSampledImageArrayDynamicIndexing | shaderStorageBufferArrayDynamicIndexing
  | shaderStorageImageArrayDynamicIndexing | shaderClipDistance | shaderCullDistance
  | shaderFloat64 | shaderInt64 | shaderInt16 | shaderResourceResidency
  | shaderResourceMinLod | sparseBinding | sparseResidencyBuffer
  | sparseResidencyImage2D | sparseResidencyImage3D | sparseResidency2Samples
  | sparseResidency4Samples | sparseResidency8Samples | sparseResidency16Samples
  | sparseResidencyAliased | variableMultisampleRate | inheritedQueries
deriving DecidableEq

/-- The VkDeviceQueueCreateInfo fields that the program fills (main.cpp
lines 198-205).  The queue priority 1.f is the exact rational 1. -/
structure VkDeviceQueueCreateInfo where
  queueFamilyIndex : Nat
  queueCount : Nat
  pQueuePriorities : List ℚ
deriving DecidableEq

/-- The VkDeviceCreateInfo fields that the program fills (main.cpp lines
208-225).  The feature set is a total map from feature flag to its VkBool32
value. -/
structure VkDeviceCreateInfo where
  queueCreateInfos : List VkDeviceQueueCreateInfo
  pEnabledFeatures : FeatureFlag → Nat
  enabledExtensionCount : Nat
  enabledLayerNames : List String

/-- The queue descriptor built at main.cpp lines 198-205: the selected queue
family index, exactly one queue, and the single priority 1.0. -/
def mkDeviceQueueCreateInfo (queueFamilyIndex : Nat) : VkDeviceQueueCreateInfo :=
  { queueFamilyIndex := queueFamilyIndex
    queueCount := 1
    pQueuePriorities := [1] }

/-- The device descriptor built at main.cpp lines 208-225, with the debug
mode flag lifted into a parameter so that both branches of the layer gate
are statable; the compiled program instantiates it with
enableValidationLayers.  VkPhysicalDeviceFeatures deviceFeatures is value
initialized, so every feature flag is zero; the extension count is zero;
the layer list is VALIDATION_LAYERS when the flag is set and empty
otherwise. -/
def mkDeviceCreateInfo (debugMode : Bool) (queueFamilyIndex : Nat) : VkDeviceCreateInfo :=
  { queueCreateInfos := [mkDeviceQueueCreateInfo queueFamilyIndex]
    pEnabledFeatures := fun _ => 0
    enabledExtensionCount := 0
    enabledLayerNames := if debugMode then VALIDATION_LAYERS else [] }

/-- The device descriptor that create_logical_device submits for a given
state: mkDeviceCreateInfo at the compiled debug flag and the selected queue
family index. -/
def create_logical_device_info (s : AppState) : VkDeviceCreateInfo :=
  mkDeviceCreateInfo enableValidationLayers s.sQueueFamilyIndex

/-- Translation of create_logical_device, main.cpp lines 192-234: assert
that the instance and the selected physical device are live (asserts are
active because only the debug configuration compiles), then call
vkCreateDevice with the descriptor of create_logical_device_info;
exit(EXIT_FAILURE) with the printed description if the backend rejects,
else store the new device handle. -/
def create_logical_device (createResult : Int) (deviceHandle : Nat)
    (s : AppState) : Except BootFail AppState :=
  if s.sInstance = VK_NULL_HANDLE then Except.error BootFail.assertFail
  else if s.sPhysicalDevice = VK_NULL_HANDLE then Except.error BootFail.assertFail
  else if createResult ≠ VK_SUCCESS then
    Except.error (BootFail.fatal
      ("vkCreateDevice failed: " ++ vulkan_result_description createResult))
  else Except.ok { s with sLogicalDevice := deviceHandle }

-- ===========================================================================
-- Window surface creation
-- ===========================================================================

/-- Translation of create_window_surface, main.cpp lines 242-264: resolve
the vkCreateWin32SurfaceKHR entry point (exit with a fixed message when it
cannot be found), then create the surface (exit with the printed
description when the backend rejects), else store the surface handle. -/
def create_window_surface (procFound : Bool) (surfaceResult : Int)
    (surfaceHandle : Nat) (s : AppState) : Except BootFail AppState :=
  if procFound = false then
    Except.error (BootFail.fatal
      "vkGetInstanceProc failed: unable to find vkCreateWin32SurfaceKHR.\n")
  else if surfaceResult ≠ VK_SUCCESS then
    Except.error (BootFail.fatal
      ("vkCreateWin32SurfaceKHR failed: " ++
        vulkan_result_description surfaceResult ++ "\n"))
  else Except.ok { s with sSurface := surfaceHandle }

-- ===========================================================================
-- Instance creation and the whole bootstrap
-- ===========================================================================

/-- The VkInstanceCreateInfo fields that the program fills (main.cpp lines
401-424). -/
structure VkInstanceCreateInfo where
  enabledLayerCount : Nat
  ppEnabledLayerNames : List String
  enabledExtensionCount : Nat
  ppEnabledExtensionNames : List String
deriving DecidableEq

/-- The instance descriptor built at main.cpp lines 401-424, with the debug
mode flag lifted into a parameter; the compiled program instantiates it
with enableValidationLayers.  When the flag is set, the validation layers
and all extensions are requested; otherwise nothing is requested. -/
def mkInstanceCreateInfo (debugMode : Bool) : VkInstanceCreateInfo :=
  if debugMode then
    { enabledLayerCount := VALIDATION_LAYERS.length
      ppEnabledLayerNames := VALIDATION_LAYERS
      enabledExtensionCount := EXTENSIONS.length
      ppEnabledExtensionNames := EXTENSIONS }
  else
    { enabledLayerCount := 0
      ppEnabledLayerNames := []
      enabledExtensionCount := 0
      ppEnabledExtensionNames := [] }

/-- The backend oracle for one run of the bootstrap: the result codes the
backend returns at each call site, the handles it writes on success, and
the enumerated device records. -/
structure Backend where
  layerCountResult : Int
  layerFillResult : Int
  extCountResult : Int
  extFillResult : Int
  instanceResult : Int
  instanceHandle : Nat
  deviceCountResult : Int
  deviceFillResult : Int
  devices : List PhysicalDevice
  createDeviceResult : Int
  deviceHandle : Nat
  surfaceProcFound : Bool
  surfaceResult : Int
  surfaceHandle : Nat
deriving DecidableEq

/-- Translation of init_vulkan, main.cpp lines 269-455, starting from the
initial static state: layer enumeration (two calls, each fatal on a
non-success result), extension enumeration (likewise), vkCreateInstance
(fatal on rejection, line 446-450), then
select_vulkan_physical_device_and_queue_family (whose internal device
enumeration is fatal on a non-success result, lines 105-117),
create_logical_device and create_window_surface. -/
def init_vulkan_run (b : Backend) : Except BootFail AppState :=
  if b.layerCountResult ≠ VK_SUCCESS then
    Except.error (BootFail.fatal
      ("vkEnumerateInstanceLayerProperties failed: " ++
        vulkan_result_description b.layerCountResult))
  else if b.layerFillResult ≠ VK_SUCCESS then
    Except.error (BootFail.fatal
      ("vkEnumerateInstanceLayerProperties failed: " ++
        vulkan_result_description b.layerFillResult))
  else if b.extCountResult ≠ VK_SUCCESS then
    Except.error (BootFail.fatal
      ("vkEnumerateInstanceExtensionProperties failed: " ++
        vulkan_result_description b.extCountResult))
  else if b.extFillResult ≠ VK_SUCCESS then
    Except.error (BootFail.fatal
      ("vkEnumerateInstanceExtensionProperties failed: " ++
        vulkan_result_description b.extFillResult))
  else if b.instanceResult ≠ VK_SUCCESS then
    Except.error (BootFail.fatal
      ("vkCreateInstance failed: " ++
        vulkan_result_description b.instanceResult ++ "\n"))
  else if b.instanceHandle = VK_NULL_HANDLE then Except.error BootFail.assertFail
  else if b.deviceCountResult ≠ VK_SUCCESS then
    Except.error (BootFail.fatal
      ("vkEnumeratePhysicalDevices failed: " ++
        vulkan_result_description b.deviceCountResult))
  else if b.deviceFillResult ≠ VK_SUCCESS then
    Except.error (BootFail.fatal
      ("vkEnumeratePhysicalDevices failed: " ++
        vulkan_result_description b.deviceFillResult))
  else
    match select_vulkan_physical_device_and_queue_family b.devices
        { initAppState with sInstance := b.instanceHandle } with
    | Except.error e => Except.error e
    | Except.ok s2 =>
      match create_logical_device b.createDeviceResult b.deviceHandle s2 with
      | Except.error e => Except.error e
      | Except.ok s3 =>
        create_window_surface b.surfaceProcFound b.surfaceResult b.surfaceHandle s3

/-- The exit status of the whole process for a given backend: EXIT_FAILURE
after a fatal printf, the abort status after a failing assert; and when the
bootstrap completes, WinMain runs the message loop and then executes the
printf of main.cpp line 579, which dereferences the always-NULL
hPrevInstance parameter, so the run terminates abnormally with the access
violation status instead of reaching return 0. -/
def program_exit_code (b : Backend) : Nat :=
  match init_vulkan_run b with
  | Except.error (BootFail.fatal _) => EXIT_FAILURE
  | Except.error BootFail.assertFail => ABORT_EXIT_CODE
  | Except.ok _ => ACCESS_VIOLATION_EXIT_CODE

/-- A backend in which no bootstrap step fails: every result code is
VK_SUCCESS, the created handles are non-null, the surface entry point
resolves, and some enumerated device satisfies the selection predicate
with a non-null handle (so that the asserts of create_logical_device
pass). -/
def backendAllOk (b : Backend) : Prop :=
  b.layerCountResult = VK_SUCCESS ∧ b.layerFillResult = VK_SUCCESS ∧
  b.extCountResult = VK_SUCCESS ∧ b.extFillResult = VK_SUCCESS ∧
  b.instanceResult = VK_SUCCESS ∧ b.instanceHandle ≠ VK_NULL_HANDLE ∧
  b.deviceCountResult = VK_SUCCESS ∧ b.deviceFillResult = VK_SUCCESS ∧
  b.createDeviceResult = VK_SUCCESS ∧ b.surfaceProcFound = true ∧
  b.surfaceResult = VK_SUCCESS ∧
  ∃ p, lastPair (satisfyingPairs b.devices) = some p ∧ p.1 ≠ VK_NULL_HANDLE

-- ===========================================================================
-- Teardown
-- ===========================================================================

/-- One destroy call of the teardown, carrying the handle value passed to
the backend. -/
inductive DestroyCall where
  | destroyDevice (handle : Nat)
  | destroySurface (handle : Nat)
  | destroyInstance (handle : Nat)
deriving DecidableEq

/-- The handle value a destroy call passes to the backend. -/
def destroyedHandle : DestroyCall → Nat
  | DestroyCall.destroyDevice h => h
  | DestroyCall.destroySurface h => h
  | DestroyCall.destroyInstance h => h

/-- Translation of shutdown, main.cpp lines 459-467: when sInstance is not
null, call vkDestroyDevice on sLogicalDevice, vkDestroySurfaceKHR on
sSurface and vkDestroyInstance on sInstance, in that order; otherwise do
nothing.  The function reads the static handles and never writes them, so
its result is the trace of destroy calls and the state is unchanged. -/
def shutdown (s : AppState) : List DestroyCall :=
  if s.sInstance ≠ VK_NULL_HANDLE then
    [DestroyCall.destroyDevice s.sLogicalDevice,
     DestroyCall.destroySurface s.sSurface,
     DestroyCall.destroyInstance s.sInstance]
  else []

/-- The destroy calls of a trace whose handle argument is a live (non-null)
handle; the backend treats a destroy of VK_NULL_HANDLE as a no-op. -/
def liveDestroys (t : List DestroyCall) : List DestroyCall :=
  t.filter (fun c => destroyedHandle c ≠ VK_NULL_HANDLE)

-- ===========================================================================
-- Selection characterization lemmas
-- ===========================================================================

lemma lastPair_cons_cons (p q : Nat × Nat) (t : List (Nat × Nat)) :
    lastPair (p :: q :: t) = lastPair (q :: t) := rfl

lemma lastPair_cons_isSome (q : Nat × Nat) (t : List (Nat × Nat)) :
    ∃ r, lastPair (q :: t) = some r := by
  induction t generalizing q with
  | nil => exact ⟨q, rfl⟩
  | cons x xs ih => exact ih x

lemma applyLast_cons (p : Nat × Nat) (ps : List (Nat × Nat)) (s : AppState) :
    applyLast (p :: ps) s = applyLast ps (applyPair p s) := by
  cases ps with
  | nil => rfl
  | cons q t =>
    obtain ⟨r, hr⟩ := lastPair_cons_isSome q t
    unfold applyLast
    rw [lastPair_cons_cons, hr]
    rfl

lemma applyLast_append (ps qs : List (Nat × Nat)) (s : AppState) :
    applyLast (ps ++ qs) s = applyLast qs (applyLast ps s) := by
  induction ps generalizing s with
  | nil => rfl
  | cons p t ih =>
    rw [List.cons_append, applyLast_cons, applyLast_cons, ih]

lemma select_queue_families_eq (d : PhysicalDevice)
    (qfs : List VkQueueFamilyProperties) (i : Nat) (s : AppState) :
    select_queue_families d qfs i s = applyLast (sat_queue_pairs d qfs i) s := by
  induction qfs generalizing i s with
  | nil => rfl
  | cons qf rest ih =>
    cases hb : device_queue_satisfies d qf with
    | false =>
      simp only [select_queue_families, sat_queue_pairs, hb]
      simpa using ih (i + 1) s
    | true =>
      simp only [select_queue_families, sat_queue_pairs, hb, if_true,
        List.singleton_append]
      rw [applyLast_cons]
      exact ih (i + 1) (applyPair (d.handle, i) s)

lemma select_devices_eq (devices : List PhysicalDevice) (s : AppState) :
    select_devices devices s = applyLast (satisfyingPairs devices) s := by
  induction devices generalizing s with
  | nil => rfl
  | cons d rest ih =>
    show select_devices rest (select_queue_families d d.queueFamilies 0 s) =
      applyLast (sat_queue_pairs d d.queueFamilies 0 ++ satisfyingPairs rest) s
    rw [applyLast_append, ← select_queue_families_eq, ih]

lemma select_ok (devices : List PhysicalDevice) (s : AppState) (p : Nat × Nat)
    (hinst : s.sInstance ≠ VK_NULL_HANDLE)
    (hlast : lastPair (satisfyingPairs devices) = some p) :
    select_vulkan_physical_device_and_queue_family devices s =
      Except.ok (applyPair p s) := by
  unfold select_vulkan_physical_device_and_queue_family
  rw [if_neg hinst, select_devices_eq]
  unfold applyLast
  rw [hlast]

-- ===========================================================================
-- Claims C1 - C5
-- ===========================================================================

/-- C1: when the pairs passing the requirement check (graphics-capable
queue family on a device with both geometry and tessellation shader
support) are nonempty, the selection retains exactly the LAST such
(device, queue family index) pair in loop order, never an earlier one:
with two satisfying matches at positions i1 < i2, the retained pair is the
one of position i2. -/
theorem claim_C1_last_match_wins (devices : List PhysicalDevice) (s : AppState)
    (p : Nat × Nat) (hinst : s.sInstance ≠ VK_NULL_HANDLE)
    (hlast : lastPair (satisfyingPairs devices) = some p) :
    select_vulkan_physical_device_and_queue_family devices s =
      Except.ok { s with sPhysicalDevice := p.1, sQueueFamilyIndex := p.2 } := by
  unfold select_vulkan_physical_device_and_queue_family
  rw [if_neg hinst, select_devices_eq]
  unfold applyLast
  rw [hlast]
  rfl

/-- Witness for C1: two devices both satisfying the predicate; the pair of
the second device (handle 6, queue family index 1) wins, not the pair of
the first. -/
theorem claim_C1_witness :
    select_vulkan_physical_device_and_queue_family
      [⟨5, 1, 1, [⟨1⟩]⟩, ⟨6, 1, 1, [⟨0⟩, ⟨3⟩]⟩]
      { initAppState with sInstance := 9 } =
      Except.ok { initAppState with sInstance := 9, sPhysicalDevice := 6, sQueueFamilyIndex := 1 } :=
  claim_C1_last_match_wins
    [⟨5, 1, 1, [⟨1⟩]⟩, ⟨6, 1, 1, [⟨0⟩, ⟨3⟩]⟩]
    { initAppState with sInstance := 9 } (6, 1) (by decide) (by decide)

/-- C2 (amended): with zero satisfying devices or queue families the
selection loop terminates without fault and leaves the retained selection
at its initial empty state; but downstream the empty selection is NOT
silently used: the assert on a non-null physical device handle in
create_logical_device fails and aborts (assertions are active in the only
configuration that compiles). -/
theorem claim_C2_empty_selection_aborts_downstream
    (devices : List PhysicalDevice) (s : AppState)
    (hinst : s.sInstance ≠ VK_NULL_HANDLE)
    (hnone : satisfyingPairs devices = []) :
    select_vulkan_physical_device_and_queue_family devices s = Except.ok s ∧
    (s.sPhysicalDevice = VK_NULL_HANDLE → ∀ (r : Int) (h : Nat),
      create_logical_device r h s = Except.error BootFail.assertFail) := by
  constructor
  · unfold select_vulkan_physical_device_and_queue_family
    rw [if_neg hinst, select_devices_eq, hnone]
    rfl
  · intro hpd r h
    unfold create_logical_device
    rw [if_neg hinst, if_pos hpd]

/-- Counterexample to C2 as stated: with a live instance and zero
enumerable devices the selection indeed stays at its empty initial state,
but the logical device creation step does not silently use it; the assert
on sPhysicalDevice fires (modelled as BootFail.assertFail), even when the
backend itself would report success. -/
theorem claim_C2_counterexample :
    select_vulkan_physical_device_and_queue_family []
        { initAppState with sInstance := 4 } =
      Except.ok { initAppState with sInstance := 4 } ∧
    create_logical_device VK_SUCCESS 7 { initAppState with sInstance := 4 } =
      Except.error BootFail.assertFail := ⟨rfl, rfl⟩

/-- Witness for the amended C2 at a concrete input: one device without
tessellation shader support, so no pair satisfies; selection is the
identity and create_logical_device aborts on the null physical device. -/
theorem claim_C2_witness :
    select_vulkan_physical_device_and_queue_family [⟨5, 1, 0, [⟨1⟩]⟩]
        { initAppState with sInstance := 2 } =
      Except.ok { initAppState with sInstance := 2 } ∧
    create_logical_device VK_SUCCESS 7 { initAppState with sInstance := 2 } =
      Except.error BootFail.assertFail := by
  have h := claim_C2_empty_selection_aborts_downstream [⟨5, 1, 0, [⟨1⟩]⟩]
    { initAppState with sInstance := 2 } (by decide) (by decide)
  exact ⟨h.1, h.2 rfl VK_SUCCESS 7⟩

/-- Counterexample to C3 as stated: in a state where the Context exists but
LogicalDevice and Surface were never created, shutdown still invokes the
device and surface destroy calls, passing the never-created null handles;
the destroys are not guarded by a liveness check on their own handle. -/
theorem claim_C3_counterexample :
    shutdown ⟨2, 0, 0, VK_NULL_HANDLE, VK_NULL_HANDLE⟩ =
      [DestroyCall.destroyDevice VK_NULL_HANDLE,
       DestroyCall.destroySurface VK_NULL_HANDLE,
       DestroyCall.destroyInstance 2] := rfl

/-- C3 (amended): every destroy call of the teardown is guarded only by a
liveness check on the Context handle sInstance: nothing is destroyed when
it is null, and when it is live the LogicalDevice and Surface destroy
calls run unconditionally with whatever handle values the statics hold,
null or not. -/
theorem claim_C3_guards_only_on_instance (s : AppState) :
    (shutdown s = [] ↔ s.sInstance = VK_NULL_HANDLE) ∧
    (s.sInstance ≠ VK_NULL_HANDLE →
      DestroyCall.destroyDevice s.sLogicalDevice ∈ shutdown s ∧
      DestroyCall.destroySurface s.sSurface ∈ shutdown s ∧
      DestroyCall.destroyInstance s.sInstance ∈ shutdown s) := by
  unfold shutdown
  by_cases h : s.sInstance = VK_NULL_HANDLE
  · simp [h]
  · simp [h]

/-- Witness for the amended C3: with a live Context and no logical device,
the device destroy call on the null handle is in the teardown trace. -/
theorem claim_C3_witness :
    DestroyCall.destroyDevice VK_NULL_HANDLE ∈
      shutdown ⟨3, 0, 0, VK_NULL_HANDLE, 8⟩ :=
  ((claim_C3_guards_only_on_instance ⟨3, 0, 0, VK_NULL_HANDLE, 8⟩).2
    (by decide)).1

/-- C4: the teardown destroys handles in the fixed order LogicalDevice,
then Surface, then Context (the strict reverse of acquisition), and
performs no destroy call at all when the Context was never created. -/
theorem claim_C4_teardown_order (s : AppState) :
    (s.sInstance = VK_NULL_HANDLE → shutdown s = []) ∧
    (s.sInstance ≠ VK_NULL_HANDLE →
      shutdown s =
        [DestroyCall.destroyDevice s.sLogicalDevice,
         DestroyCall.destroySurface s.sSurface,
         DestroyCall.destroyInstance s.sInstance]) := by
  unfold shutdown
  constructor
  · intro h
    simp [h]
  · intro h
    simp [h]

/-- Witness for C4: never-created Context gives the empty trace; a fully
created state gives the three destroys in reverse acquisition order. -/
theorem claim_C4_witness :
    shutdown initAppState = [] ∧
    shutdown ⟨1, 0, 0, 2, 3⟩ =
      [DestroyCall.destroyDevice 2, DestroyCall.destroySurface 3,
       DestroyCall.destroyInstance 1] :=
  ⟨(claim_C4_teardown_order initAppState).1 rfl,
   (claim_C4_teardown_order ⟨1, 0, 0, 2, 3⟩).2 (by decide)⟩

/-- C5 (amended): in the single invocation that the program performs
(shutdown is registered exactly once through atexit), teardown is
order-safe: with only the Context created, the Context is the only
non-null handle destroyed (the device and surface calls still run, with
null handles); with everything created the order is LogicalDevice,
Surface, Context; and no destroy call occurs twice within one invocation.
The function however never resets the static handles, so it is not
idempotent under repeated invocation (see the counterexample). -/
theorem claim_C5_single_invocation_safety (s : AppState) :
    (s.sInstance ≠ VK_NULL_HANDLE → s.sLogicalDevice = VK_NULL_HANDLE →
      s.sSurface = VK_NULL_HANDLE →
      liveDestroys (shutdown s) = [DestroyCall.destroyInstance s.sInstance]) ∧
    (s.sInstance ≠ VK_NULL_HANDLE → s.sLogicalDevice ≠ VK_NULL_HANDLE →
      s.sSurface ≠ VK_NULL_HANDLE →
      shutdown s =
        [DestroyCall.destroyDevice s.sLogicalDevice,
         DestroyCall.destroySurface s.sSurface,
         DestroyCall.destroyInstance s.sInstance]) ∧
    (∀ c : DestroyCall, (shutdown s).count c ≤ 1) := by
  refine ⟨?_, ?_, ?_⟩
  · intro hi hld hs
    unfold shutdown liveDestroys
    rw [if_pos hi, hld, hs]
    simp [destroyedHandle, hi]
  · intro hi hld hs
    simp [shutdown, hi]
  · have hnd : (shutdown s).Nodup := by
      unfold shutdown
      by_cases h : s.sInstance = VK_NULL_HANDLE
      · simp [h]
      · simp [h]
    exact fun c => List.nodup_iff_count_le_one.mp hnd c

/-- Counterexample to C5 as stated: shutdown never writes the static
handles, so a second invocation observes the same state and destroys the
live Context handle a second time; the never-double-destroy guarantee
fails across repeated invocations. -/
theorem claim_C5_counterexample :
    1 < (shutdown ⟨1, 0, 0, 2, 3⟩ ++ shutdown ⟨1, 0, 0, 2, 3⟩).count
      (DestroyCall.destroyInstance 1) := by decide

/-- Witness for the amended C5 at concrete states: context-only state
destroys only the Context among live handles; the full state destroys in
reverse order; and the instance destroy occurs at most once in a single
invocation. -/
theorem claim_C5_witness :
    liveDestroys (shutdown ⟨5, 0, 0, 0, 0⟩) = [DestroyCall.destroyInstance 5] ∧
    shutdown ⟨5, 0, 0, 6, 7⟩ =
      [DestroyCall.destroyDevice 6, DestroyCall.destroySurface 7,
       DestroyCall.destroyInstance 5] ∧
    (shutdown ⟨5, 0, 0, 6, 7⟩).count (DestroyCall.destroyInstance 5) ≤ 1 :=
  ⟨(claim_C5_single_invocation_safety ⟨5, 0, 0, 0, 0⟩).1 (by decide) rfl rfl,
   (claim_C5_single_invocation_safety ⟨5, 0, 0, 6, 7⟩).2.1 (by decide)
     (by decide) (by decide),
   (claim_C5_single_invocation_safety ⟨5, 0, 0, 6, 7⟩).2.2
     (DestroyCall.destroyInstance 5)⟩

-- ===========================================================================
-- Claims C6 - C10
-- ===========================================================================

/-- C6 (amended): every enumeration performs exactly one count call with a
null buffer and, when the count call succeeded, exactly one fill call with
a buffer of that count, and never retry-loops; but a count growing between
the two calls is NOT tolerated: a non-success fill result, VK_INCOMPLETE
included, terminates the process like any other rejection.  Only the queue
family enumeration, whose backend calls return no result code, cannot
terminate the process. -/
theorem claim_C6_count_then_fill_no_retry (r1 : Int) (c : Nat) (r2 : Int) :
    ((two_call_enumeration r1 c r2).1 = [EnumCall.countCall] ∨
      (two_call_enumeration r1 c r2).1 =
        [EnumCall.countCall, EnumCall.fillCall c]) ∧
    (r1 = VK_SUCCESS →
      (two_call_enumeration r1 c r2).1 =
        [EnumCall.countCall, EnumCall.fillCall c]) ∧
    (r1 = VK_SUCCESS → r2 ≠ VK_SUCCESS →
      (two_call_enumeration r1 c r2).2 = none) ∧
    (r1 = VK_SUCCESS → r2 = VK_SUCCESS →
      (two_call_enumeration r1 c r2).2 = some c) ∧
    enumerate_physical_devices r1 c r2 = two_call_enumeration r1 c r2 ∧
    enumerate_queue_family_properties c =
      ([EnumCall.countCall, EnumCall.fillCall c], c) := by
  refine ⟨?_, ?_, ?_, ?_, rfl, rfl⟩
  · by_cases h1 : r1 = VK_SUCCESS
    · right
      by_cases h2 : r2 = VK_SUCCESS <;> simp [two_call_enumeration, h1, h2]
    · left
      simp [two_call_enumeration, h1]
  · intro h1
    by_cases h2 : r2 = VK_SUCCESS <;> simp [two_call_enumeration, h1, h2]
  · intro h1 h2
    simp [two_call_enumeration, h1, h2]
  · intro h1 h2
    simp [two_call_enumeration, h1, h2]

/-- Counterexample to C6 as stated: when the device count grows between the
two calls the fill call returns VK_INCOMPLETE, which is not VK_SUCCESS, so
enumerate_physical_devices prints and exits (outcome none models
exit(EXIT_FAILURE)); the incomplete result does terminate the process. -/
theorem claim_C6_counterexample :
    enumerate_physical_devices VK_SUCCESS 3 VK_INCOMPLETE =
      ([EnumCall.countCall, EnumCall.fillCall 3], none) := rfl

/-- Witness for the amended C6: a successful count call of 4 records
followed by an incomplete fill call ends the run. -/
theorem claim_C6_witness :
    (two_call_enumeration VK_SUCCESS 4 VK_INCOMPLETE).2 = none :=
  (claim_C6_count_then_fill_no_retry VK_SUCCESS 4 VK_INCOMPLETE).2.2.1 rfl
    (by decide)

/-- C7: vulkan_result_description returns exactly the documented string for
each of the eight codes of the mapping table, and for every code outside
the table a string with the numeric code value inlined verbatim. -/
theorem claim_C7_result_descriptions :
    vulkan_result_description VK_SUCCESS = "Command successfully completed." ∧
    vulkan_result_description VK_INCOMPLETE =
      "A return array was too small for the result." ∧
    vulkan_result_description VK_ERROR_OUT_OF_HOST_MEMORY =
      "A host memory allocation has failed." ∧
    vulkan_result_description VK_ERROR_OUT_OF_DEVICE_MEMORY =
      "A device memory allocation has failed." ∧
    vulkan_result_description VK_ERROR_INITIALIZATION_FAILED =
      "Initialization of an object could not be completed." ∧
    vulkan_result_description VK_ERROR_LAYER_NOT_PRESENT =
      "A requested layer is not present or could not be loaded." ∧
    vulkan_result_description VK_ERROR_EXTENSION_NOT_PRESENT =
      "A requested extension is not supported." ∧
    vulkan_result_description VK_ERROR_INCOMPATIBLE_DRIVER =
      "The requested version of Vulkan is not supported by the driver." ∧
    ∀ r : Int, r ≠ VK_SUCCESS → r ≠ VK_INCOMPLETE →
      r ≠ VK_ERROR_OUT_OF_HOST_MEMORY → r ≠ VK_ERROR_OUT_OF_DEVICE_MEMORY →
      r ≠ VK_ERROR_INITIALIZATION_FAILED → r ≠ VK_ERROR_LAYER_NOT_PRESENT →
      r ≠ VK_ERROR_EXTENSION_NOT_PRESENT → r ≠ VK_ERROR_INCOMPATIBLE_DRIVER →
      ∃ a b, vulkan_result_description r = a ++ toString r ++ b := by
  refine ⟨rfl, rfl, rfl, rfl, rfl, rfl, rfl, rfl, ?_⟩
  intro r h0 h5 h1 h2 h3 h6 h7 h9
  unfold vulkan_result_description
  rw [if_neg h0, if_neg h5, if_neg h1, if_neg h2, if_neg h3, if_neg h6,
    if_neg h7, if_neg h9]
  exact ⟨"An unknown result code [", "] occured.", rfl⟩

/-- Witness for C7: the unmapped code -4 (VK_ERROR_DEVICE_LOST) renders
with the numeric value inlined. -/
theorem claim_C7_witness :
    ∃ a b, vulkan_result_description (-4) = a ++ toString (-4 : Int) ++ b :=
  claim_C7_result_descriptions.2.2.2.2.2.2.2.2 (-4) (by decide) (by decide)
    (by decide) (by decide) (by decide) (by decide) (by decide) (by decide)

/-- A bootstrap in which no step fails reaches the end of init_vulkan with
the handles the backend produced. -/
lemma init_vulkan_run_allOk (b : Backend) (p : Nat × Nat)
    (h1 : b.layerCountResult = VK_SUCCESS) (h2 : b.layerFillResult = VK_SUCCESS)
    (h3 : b.extCountResult = VK_SUCCESS) (h4 : b.extFillResult = VK_SUCCESS)
    (h5 : b.instanceResult = VK_SUCCESS) (h6 : b.instanceHandle ≠ VK_NULL_HANDLE)
    (h7 : b.deviceCountResult = VK_SUCCESS) (h8 : b.deviceFillResult = VK_SUCCESS)
    (h9 : b.createDeviceResult = VK_SUCCESS) (h10 : b.surfaceProcFound = true)
    (h11 : b.surfaceResult = VK_SUCCESS)
    (hp : lastPair (satisfyingPairs b.devices) = some p)
    (hp1 : p.1 ≠ VK_NULL_HANDLE) :
    init_vulkan_run b =
      Except.ok ⟨b.instanceHandle, p.1, p.2, b.deviceHandle, b.surfaceHandle⟩ := by
  have hsel := select_ok b.devices
    { initAppState with sInstance := b.instanceHandle } p h6 hp
  unfold init_vulkan_run
  rw [if_neg (not_not_intro h1), if_neg (not_not_intro h2),
    if_neg (not_not_intro h3), if_neg (not_not_intro h4),
    if_neg (not_not_intro h5), if_neg h6, if_neg (not_not_intro h7),
    if_neg (not_not_intro h8), hsel]
  simp [create_logical_device, create_window_surface, applyPair, initAppState,
    h6, hp1, h9, h10, h11]

/-- C8 (amended): every backend rejection at any bootstrap step prints a
description derived from the result code (a fixed message for the entry
point resolution, which has no result code) and terminates with a non-zero
exit status, with no retry; but a run in which no step fails does NOT exit
with status 0: after the message loop, WinMain dereferences the
always-NULL hPrevInstance parameter (main.cpp line 579), so even a
failure-free run terminates abnormally with a non-zero status, and no run
of the program exits with EXIT_SUCCESS. -/
theorem claim_C8_fatal_or_crash (b : Backend) :
    (backendAllOk b → program_exit_code b = ACCESS_VIOLATION_EXIT_CODE) ∧
    (program_exit_code b ≠ EXIT_SUCCESS) ∧
    (∀ e, init_vulkan_run b = Except.error e → program_exit_code b ≠ 0) ∧
    (b.layerCountResult ≠ VK_SUCCESS →
      init_vulkan_run b = Except.error (BootFail.fatal
        ("vkEnumerateInstanceLayerProperties failed: " ++
          vulkan_result_description b.layerCountResult))) ∧
    (b.layerCountResult = VK_SUCCESS → b.layerFillResult ≠ VK_SUCCESS →
      init_vulkan_run b = Except.error (BootFail.fatal
        ("vkEnumerateInstanceLayerProperties failed: " ++
          vulkan_result_description b.layerFillResult))) ∧
    (b.layerCountResult = VK_SUCCESS → b.layerFillResult = VK_SUCCESS →
      b.extCountResult ≠ VK_SUCCESS →
      init_vulkan_run b = Except.error (BootFail.fatal
        ("vkEnumerateInstanceExtensionProperties failed: " ++
          vulkan_result_description b.extCountResult))) ∧
    (b.layerCountResult = VK_SUCCESS → b.layerFillResult = VK_SUCCESS →
      b.extCountResult = VK_SUCCESS → b.extFillResult ≠ VK_SUCCESS →
      init_vulkan_run b = Except.error (BootFail.fatal
        ("vkEnumerateInstanceExtensionProperties failed: " ++
          vulkan_result_description b.extFillResult))) ∧
    (b.layerCountResult = VK_SUCCESS → b.layerFillResult = VK_SUCCESS →
      b.extCountResult = VK_SUCCESS → b.extFillResult = VK_SUCCESS →
      b.instanceResult ≠ VK_SUCCESS →
      init_vulkan_run b = Except.error (BootFail.fatal
        ("vkCreateInstance failed: " ++
          vulkan_result_description b.instanceResult ++ "\n"))) ∧
    (b.layerCountResult = VK_SUCCESS → b.layerFillResult = VK_SUCCESS →
      b.extCountResult = VK_SUCCESS → b.extFillResult = VK_SUCCESS →
      b.instanceResult = VK_SUCCESS → b.instanceHandle ≠ VK_NULL_HANDLE →
      b.deviceCountResult ≠ VK_SUCCESS →
      init_vulkan_run b = Except.error (BootFail.fatal
        ("vkEnumeratePhysicalDevices failed: " ++
          vulkan_result_description b.deviceCountResult))) ∧
    (b.layerCountResult = VK_SUCCESS → b.layerFillResult = VK_SUCCESS →
      b.extCountResult = VK_SUCCESS → b.extFillResult = VK_SUCCESS →
      b.instanceResult = VK_SUCCESS → b.instanceHandle ≠ VK_NULL_HANDLE →
      b.deviceCountResult = VK_SUCCESS → b.deviceFillResult ≠ VK_SUCCESS →
      init_vulkan_run b = Except.error (BootFail.fatal
        ("vkEnumeratePhysicalDevices failed: " ++
          vulkan_result_description b.deviceFillResult))) ∧
    (∀ p : Nat × Nat, b.layerCountResult = VK_SUCCESS →
      b.layerFillResult = VK_SUCCESS → b.extCountResult = VK_SUCCESS →
      b.extFillResult = VK_SUCCESS → b.instanceResult = VK_SUCCESS →
      b.instanceHandle ≠ VK_NULL_HANDLE → b.deviceCountResult = VK_SUCCESS →
      b.deviceFillResult = VK_SUCCESS →
      lastPair (satisfyingPairs b.devices) = some p → p.1 ≠ VK_NULL_HANDLE →
      b.createDeviceResult ≠ VK_SUCCESS →
      init_vulkan_run b = Except.error (BootFail.fatal
        ("vkCreateDevice failed: " ++
          vulkan_result_description b.createDeviceResult))) ∧
    (∀ p : Nat × Nat, b.layerCountResult = VK_SUCCESS →
      b.layerFillResult = VK_SUCCESS → b.extCountResult = VK_SUCCESS →
      b.extFillResult = VK_SUCCESS → b.instanceResult = VK_SUCCESS →
      b.instanceHandle ≠ VK_NULL_HANDLE → b.deviceCountResult = VK_SUCCESS →
      b.deviceFillResult = VK_SUCCESS →
      lastPair (satisfyingPairs b.devices) = some p → p.1 ≠ VK_NULL_HANDLE →
      b.createDeviceResult = VK_SUCCESS → b.surfaceProcFound = false →
      init_vulkan_run b = Except.error (BootFail.fatal
        "vkGetInstanceProc failed: unable to find vkCreateWin32SurfaceKHR.\n")) ∧
    (∀ p : Nat × Nat, b.layerCountResult = VK_SUCCESS →
      b.layerFillResult = VK_SUCCESS → b.extCountResult = VK_SUCCESS →
      b.extFillResult = VK_SUCCESS → b.instanceResult = VK_SUCCESS →
      b.instanceHandle ≠ VK_NULL_HANDLE → b.deviceCountResult = VK_SUCCESS →
      b.deviceFillResult = VK_SUCCESS →
      lastPair (satisfyingPairs b.devices) = some p → p.1 ≠ VK_NULL_HANDLE →
      b.createDeviceResult = VK_SUCCESS → b.surfaceProcFound = true →
      b.surfaceResult ≠ VK_SUCCESS →
      init_vulkan_run b = Except.error (BootFail.fatal
        ("vkCreateWin32SurfaceKHR failed: " ++
          vulkan_result_description b.surfaceResult ++ "\n"))) := by
  refine ⟨?_, ?_, ?_, ?_, ?_, ?_, ?_, ?_, ?_, ?_, ?_, ?_, ?_⟩
  · intro h
    obtain ⟨h1, h2, h3, h4, h5, h6, h7, h8, h9, h10, h11, p, hp, hp1⟩ := h
    unfold program_exit_code
    rw [init_vulkan_run_allOk b p h1 h2 h3 h4 h5 h6 h7 h8 h9 h10 h11 hp hp1]
  · unfold program_exit_code
    cases hrun : init_vulkan_run b with
    | error e =>
      cases e <;> simp [EXIT_FAILURE, ABORT_EXIT_CODE, EXIT_SUCCESS]
    | ok s =>
      simp [ACCESS_VIOLATION_EXIT_CODE, EXIT_SUCCESS]
  · intro e he
    unfold program_exit_code
    rw [he]
    cases e <;> simp [EXIT_FAILURE, ABORT_EXIT_CODE]
  · intro hf
    unfold init_vulkan_run
    rw [if_pos hf]
  · intro h1 hf
    unfold init_vulkan_run
    rw [if_neg (not_not_intro h1), if_pos hf]
  · intro h1 h2 hf
    unfold init_vulkan_run
    rw [if_neg (not_not_intro h1), if_neg (not_not_intro h2), if_pos hf]
  · intro h1 h2 h3 hf
    unfold init_vulkan_run
    rw [if_neg (not_not_intro h1), if_neg (not_not_intro h2),
      if_neg (not_not_intro h3), if_pos hf]
  · intro h1 h2 h3 h4 hf
    unfold init_vulkan_run
    rw [if_neg (not_not_intro h1), if_neg (not_not_intro h2),
      if_neg (not_not_intro h3), if_neg (not_not_intro h4), if_pos hf]
  · intro h1 h2 h3 h4 h5 h6 hf
    unfold init_vulkan_run
    rw [if_neg (not_not_intro h1), if_neg (not_not_intro h2),
      if_neg (not_not_intro h3), if_neg (not_not_intro h4),
      if_neg (not_not_intro h5), if_neg h6, if_pos hf]
  · intro h1 h2 h3 h4 h5 h6 h7 hf
    unfold init_vulkan_run
    rw [if_neg (not_not_intro h1), if_neg (not_not_intro h2),
      if_neg (not_not_intro h3), if_neg (not_not_intro h4),
      if_neg (not_not_intro h5), if_neg h6, if_neg (not_not_intro h7),
      if_pos hf]
  · intro p h1 h2 h3 h4 h5 h6 h7 h8 hp hp1 hf
    have hsel := select_ok b.devices
      { initAppState with sInstance := b.instanceHandle } p h6 hp
    unfold init_vulkan_run
    rw [if_neg (not_not_intro h1), if_neg (not_not_intro h2),
      if_neg (not_not_intro h3), if_neg (not_not_intro h4),
      if_neg (not_not_intro h5), if_neg h6, if_neg (not_not_intro h7),
      if_neg (not_not_intro h8), hsel]
    simp [create_logical_device, applyPair, initAppState, h6, hp1, hf]
  · intro p h1 h2 h3 h4 h5 h6 h7 h8 hp hp1 h9 hpf
    have hsel := select_ok b.devices
      { initAppState with sInstance := b.instanceHandle } p h6 hp
    unfold init_vulkan_run
    rw [if_neg (not_not_intro h1), if_neg (not_not_intro h2),
      if_neg (not_not_intro h3), if_neg (not_not_intro h4),
      if_neg (not_not_intro h5), if_neg h6, if_neg (not_not_intro h7),
      if_neg (not_not_intro h8), hsel]
    simp [create_logical_device, create_window_surface, applyPair,
      initAppState, h6, hp1, h9, hpf]
  · intro p h1 h2 h3 h4 h5 h6 h7 h8 hp hp1 h9 h10 hf
    have hsel := select_ok b.devices
      { initAppState with sInstance := b.instanceHandle } p h6 hp
    unfold init_vulkan_run
    rw [if_neg (not_not_intro h1), if_neg (not_not_intro h2),
      if_neg (not_not_intro h3), if_neg (not_not_intro h4),
      if_neg (not_not_intro h5), if_neg h6, if_neg (not_not_intro h7),
      if_neg (not_not_intro h8), hsel]
    simp [create_logical_device, create_window_surface, applyPair,
      initAppState, h6, hp1, h9, h10, hf]

/-- Counterexample to C8 as stated: a backend in which every call succeeds,
the created handles are non-null and a device satisfies the predicate — a
run in which no step fails — still does not exit with status 0, because
after the message loop WinMain dereferences the always-NULL hPrevInstance
(main.cpp line 579) and the process terminates abnormally. -/
theorem claim_C8_counterexample :
    backendAllOk ⟨0, 0, 0, 0, 0, 1, 0, 0, [⟨2, 1, 1, [⟨1⟩]⟩], 0, 3, true, 0, 4⟩ ∧
    program_exit_code
      ⟨0, 0, 0, 0, 0, 1, 0, 0, [⟨2, 1, 1, [⟨1⟩]⟩], 0, 3, true, 0, 4⟩ ≠ 0 :=
  ⟨⟨rfl, rfl, rfl, rfl, rfl, by decide, rfl, rfl, rfl, rfl, rfl,
     (2, 0), by decide, by decide⟩, by decide⟩

/-- Witness for the amended C8: the same failure-free backend terminates
with the access violation status, not 0. -/
theorem claim_C8_witness :
    program_exit_code
      ⟨0, 0, 0, 0, 0, 1, 0, 0, [⟨2, 1, 1, [⟨1⟩]⟩], 0, 3, true, 0, 4⟩ =
      ACCESS_VIOLATION_EXIT_CODE :=
  (claim_C8_fatal_or_crash
    ⟨0, 0, 0, 0, 0, 1, 0, 0, [⟨2, 1, 1, [⟨1⟩]⟩], 0, 3, true, 0, 4⟩).1
    ⟨rfl, rfl, rfl, rfl, rfl, by decide, rfl, rfl, rfl, rfl, rfl,
      (2, 0), by decide, by decide⟩

/-- C9: logical device creation requests exactly one queue with priority
1.0 from the selected queue family, the empty feature set (every feature
flag zero), zero device extensions, and a layer list mirroring the debug
mode gate: the validation layer list when the flag is on, the empty list
otherwise. -/
theorem claim_C9_device_create_info (dm : Bool) (qfi : Nat) :
    (mkDeviceCreateInfo dm qfi).queueCreateInfos.length = 1 ∧
    (∀ q ∈ (mkDeviceCreateInfo dm qfi).queueCreateInfos,
      q.queueFamilyIndex = qfi ∧ q.queueCount = 1 ∧
      q.pQueuePriorities = [(1 : ℚ)]) ∧
    (∀ f, (mkDeviceCreateInfo dm qfi).pEnabledFeatures f = 0) ∧
    (mkDeviceCreateInfo dm qfi).enabledExtensionCount = 0 ∧
    (dm = true → (mkDeviceCreateInfo dm qfi).enabledLayerNames =
      ["VK_LAYER_LUNARG_standard_validation"]) ∧
    (dm = false → (mkDeviceCreateInfo dm qfi).enabledLayerNames = []) ∧
    (∀ s : AppState, create_logical_device_info s =
      mkDeviceCreateInfo enableValidationLayers s.sQueueFamilyIndex) := by
  refine ⟨rfl, ?_, fun f => rfl, rfl, ?_, ?_, fun s => rfl⟩
  · intro q hq
    rw [List.mem_singleton.mp hq]
    exact ⟨rfl, rfl, rfl⟩
  · intro h
    simp [mkDeviceCreateInfo, h, VALIDATION_LAYERS]
  · intro h
    simp [mkDeviceCreateInfo, h]

/-- Witness for C9 at concrete inputs: the layer gate in both positions and
the queue descriptor of family 5. -/
theorem claim_C9_witness :
    (mkDeviceCreateInfo true 5).enabledLayerNames =
      ["VK_LAYER_LUNARG_standard_validation"] ∧
    (mkDeviceCreateInfo false 5).enabledLayerNames = [] ∧
    (mkDeviceQueueCreateInfo 5).queueCount = 1 :=
  ⟨(claim_C9_device_create_info true 5).2.2.2.2.1 rfl,
   (claim_C9_device_create_info false 5).2.2.2.2.2.1 rfl,
   ((claim_C9_device_create_info true 5).2.1 (mkDeviceQueueCreateInfo 5)
     (List.mem_singleton.mpr rfl)).2.1⟩

/-- C10: as compiled, the debug mode flag is the constant true (the NDEBUG
branch of main.cpp lines 25-29 defines a constant of a different name, so
only the debug configuration compiles), hence instance creation requests
the validation layer and all three extensions, and the debug-disabled else
branches (which would request zero layers and zero extensions) are never
taken. -/
theorem claim_C10_debug_mode_always_on :
    enableValidationLayers = true ∧
    mkInstanceCreateInfo enableValidationLayers = mkInstanceCreateInfo true ∧
    (mkInstanceCreateInfo enableValidationLayers).ppEnabledLayerNames =
      ["VK_LAYER_LUNARG_standard_validation"] ∧
    (mkInstanceCreateInfo enableValidationLayers).ppEnabledExtensionNames =
      ["VK_EXT_debug_utils", "VK_KHR_surface", "VK_KHR_win32_surface"] ∧
    (mkInstanceCreateInfo enableValidationLayers).enabledLayerCount = 1 ∧
    (mkInstanceCreateInfo enableValidationLayers).enabledExtensionCount = 3 ∧
    (mkInstanceCreateInfo enableValidationLayers).enabledLayerCount ≠ 0 ∧
    (∀ qfi : Nat, (mkDeviceCreateInfo enableValidationLayers qfi).enabledLayerNames =
      VALIDATION_LAYERS) :=
  ⟨rfl, rfl, rfl, rfl, rfl, rfl, by decide, fun _ => rfl⟩

end VulkanSandbox
